import Mathlib

/-!
Verification of the moving-box tracker's data model and domain operations.

The development shallowly embeds the SQLite-backed operations of the two
application variants found in the repository:

* `SimplifiedApp`      — simplified_app.py       (hard-delete variant)
* `SimplifiedAppFixed` — simplified_app_fixed.py (soft-delete variant)
* `Export`             — export.py
* `Backup`             — backup.py

Database tables become lists of records, a SQL transaction becomes a single
functional state update (an exception before commit leaves the caller's state
untouched, which the embedding renders by returning an error value carrying no
state), and AUTOINCREMENT row ids become explicit counters in the state.
Wall-clock columns (created_at / last_modified, history timestamps) are not
modelled: no verified property depends on them.
-/

/-- A row of the `boxes` table (migrated schema of simplified_app.py:
id, box_number, priority, category_id FK, denormalized category text,
box_size, description, is_deleted flag).  `notes` is the extra column read by
export.py's search filter. -/
structure Box where
  id : Nat
  box_number : Nat
  priority : String
  category_id : Option Nat
  category : String
  box_size : String
  description : String
  is_deleted : Bool
  notes : String
deriving DecidableEq

/-- A row of the `categories` table.  simplified_app.py's schema has only
(id, name); simplified_app_fixed.py adds `is_active` (soft flag).  The
hard-delete variant's operations simply never read `is_active`. -/
structure Category where
  id : Nat
  name : String
  is_active : Bool
deriving DecidableEq

/-- A row of the append-only `box_history` audit table. -/
structure HistoryEntry where
  box_id : Nat
  action : String
  changes : String
  editor : String
deriving DecidableEq

/-- The database state: the three tables plus the AUTOINCREMENT counters for
`boxes.id` and `categories.id`. -/
structure DB where
  boxes : List Box
  categories : List Category
  history : List HistoryEntry
  next_box_id : Nat
  next_cat_id : Nat
deriving DecidableEq

/-- The `while next_number in used_numbers: next_number += 1` loop shared by
both variants' `get_next_box_number`, made structurally recursive on a fuel
argument.  The callers pass fuel `used.length + 1`, which is enough to reach
the first free number (proved below). -/
def findNextNumber (used : List Nat) : Nat → Nat → Nat
  | 0, next => next
  | fuel + 1, next => if next ∈ used then findNextNumber used fuel (next + 1) else next

theorem findNextNumber_le (used : List Nat) :
    ∀ fuel next, next ≤ findNextNumber used fuel next := by
  intro fuel
  induction fuel with
  | zero => intro next; simp [findNextNumber]
  | succ n ih =>
    intro next
    simp only [findNextNumber]
    split
    · exact Nat.le_trans (Nat.le_succ next) (ih (next + 1))
    · exact Nat.le_refl next

theorem findNextNumber_spec (used : List Nat) :
    ∀ fuel next, (∃ m, next ≤ m ∧ m < next + fuel ∧ m ∉ used) →
      findNextNumber used fuel next ∉ used ∧
      ∀ k, next ≤ k → k < findNextNumber used fuel next → k ∈ used := by
  intro fuel
  induction fuel with
  | zero =>
    rintro next ⟨m, h1, h2, -⟩
    omega
  | succ n ih =>
    rintro next ⟨m, hm1, hm2, hm3⟩
    simp only [findNextNumber]
    split
    case isTrue hmem =>
      have hne : m ≠ next := fun h => hm3 (h ▸ hmem)
      obtain ⟨h1, h2⟩ := ih (next + 1) ⟨m, by omega, by omega, hm3⟩
      refine ⟨h1, ?_⟩
      intro k hk1 hk2
      rcases Nat.eq_or_lt_of_le hk1 with h | h
      · exact h ▸ hmem
      · exact h2 k h hk2
    case isFalse hmem =>
      exact ⟨hmem, fun k hk1 hk2 => absurd (Nat.lt_of_le_of_lt hk1 hk2) (Nat.lt_irrefl _)⟩

/-- Pigeonhole: among `1, …, used.length + 1` some number is missing from
`used`. -/
theorem exists_unused (used : List Nat) :
    ∃ m, 1 ≤ m ∧ m < 1 + (used.length + 1) ∧ m ∉ used := by
  by_contra h
  push_neg at h
  have hsub : Finset.Icc 1 (used.length + 1) ⊆ used.toFinset := by
    intro m hm
    rw [Finset.mem_Icc] at hm
    rw [List.mem_toFinset]
    exact h m hm.1 (by omega)
  have h1 : (Finset.Icc 1 (used.length + 1)).card ≤ used.toFinset.card :=
    Finset.card_le_card hsub
  have h2 : (Finset.Icc 1 (used.length + 1)).card = used.length + 1 := by
    rw [Nat.card_Icc]
    omega
  have h3 : used.toFinset.card ≤ used.length := used.toFinset_card_le
  omega

/-- The loop started at 1 with fuel `used.length + 1` computes the least
positive number outside `used`. -/
theorem findNextNumber_least (used : List Nat) :
    0 < findNextNumber used (used.length + 1) 1 ∧
    findNextNumber used (used.length + 1) 1 ∉ used ∧
    ∀ m, 0 < m → m ∉ used → findNextNumber used (used.length + 1) 1 ≤ m := by
  obtain ⟨hnot, hall⟩ := findNextNumber_spec used (used.length + 1) 1 (exists_unused used)
  refine ⟨findNextNumber_le used _ 1, hnot, ?_⟩
  intro m hm hnotin
  by_contra hlt
  push_neg at hlt
  exact hnotin (hall m hm hlt)

namespace SimplifiedAppFixed

/-- `SELECT box_number FROM boxes WHERE is_deleted = 0` — the numbers that
`get_next_box_number` of simplified_app_fixed.py treats as used. -/
def used_numbers (db : DB) : List Nat :=
  (db.boxes.filter (fun b => !b.is_deleted)).map Box.box_number

/-- get_next_box_number (simplified_app_fixed.py, lines 289-314): first-fit
gap search over the box numbers of non-deleted rows. -/
def get_next_box_number (db : DB) : Nat :=
  findNextNumber (used_numbers db) ((used_numbers db).length + 1) 1

end SimplifiedAppFixed

namespace SimplifiedApp

/-- `SELECT box_number FROM boxes` — simplified_app.py's `get_next_box_number`
scans every row, with no `is_deleted` filter (that variant hard-deletes). -/
def used_numbers (db : DB) : List Nat :=
  db.boxes.map Box.box_number

/-- get_next_box_number (simplified_app.py, lines 459-484): first-fit gap
search over all stored box numbers. -/
def get_next_box_number (db : DB) : Nat :=
  findNextNumber (used_numbers db) ((used_numbers db).length + 1) 1

end SimplifiedApp

/-- C2: for every database state, the soft-delete variant's
`get_next_box_number` returns the smallest positive integer that is not the
box number of any non-deleted box (and in particular never a number currently
held by a non-deleted box); the hard-delete variant's `get_next_box_number`
satisfies the same contract on every state it can itself produce (states with
no soft-deleted rows). -/
theorem C2_next_box_number_first_fit (db : DB) :
    (0 < SimplifiedAppFixed.get_next_box_number db ∧
     SimplifiedAppFixed.get_next_box_number db ∉ SimplifiedAppFixed.used_numbers db ∧
     ∀ m, 0 < m → m ∉ SimplifiedAppFixed.used_numbers db →
       SimplifiedAppFixed.get_next_box_number db ≤ m) ∧
    ((∀ b ∈ db.boxes, b.is_deleted = false) →
     0 < SimplifiedApp.get_next_box_number db ∧
     SimplifiedApp.get_next_box_number db ∉ SimplifiedAppFixed.used_numbers db ∧
     ∀ m, 0 < m → m ∉ SimplifiedAppFixed.used_numbers db →
       SimplifiedApp.get_next_box_number db ≤ m) := by
  constructor
  · exact findNextNumber_least _
  · intro hall
    have hsame : SimplifiedApp.used_numbers db = SimplifiedAppFixed.used_numbers db := by
      unfold SimplifiedApp.used_numbers SimplifiedAppFixed.used_numbers
      congr 1
      symm
      rw [List.filter_eq_self]
      intro b hb
      simp [hall b hb]
    unfold SimplifiedApp.get_next_box_number
    rw [hsame]
    exact findNextNumber_least _

/-- A concrete non-deleted box used by witness states. -/
def boxW (id num : Nat) (deleted : Bool) : Box :=
  { id := id, box_number := num, priority := "Priority 1", category_id := some 1,
    category := "Kitchen", box_size := "Medium", description := "witness box",
    is_deleted := deleted, notes := "" }

def c2_db : DB :=
  { boxes := [boxW 1 1 false, boxW 2 2 false, boxW 3 5 false],
    categories := [⟨1, "Kitchen", true⟩], history := [],
    next_box_id := 4, next_cat_id := 2 }

theorem C2_next_box_number_first_fit_witness :
    SimplifiedApp.get_next_box_number c2_db ∉ SimplifiedAppFixed.used_numbers c2_db :=
  ((C2_next_box_number_first_fit c2_db).2 (by decide)).2.1

/-- Python's str.strip(): drop leading and trailing whitespace.  (String.trim
is not used because its Substring helpers do not reduce in the kernel.) -/
def pyStrip (s : String) : String :=
  String.mk (((s.data.dropWhile Char.isWhitespace).reverse.dropWhile Char.isWhitespace).reverse)

/-- SQLite's NOCASE collation folds ASCII upper case to lower case. -/
def sqlLower (s : String) : String :=
  String.mk (s.data.map Char.toLower)

namespace SimplifiedApp

/-- count_boxes_using_category (simplified_app.py, lines 393-396):
`SELECT COUNT(*) FROM boxes WHERE category_id = ?` — every row counts,
with no `is_deleted` filter. -/
def count_boxes_using_category (db : DB) (category_id : Nat) : Nat :=
  (db.boxes.filter (fun b => b.category_id = some category_id)).length

/-- edit_category (simplified_app.py, lines 399-440).  Rejects an
empty/whitespace-only name, then a case-insensitive duplicate among the other
categories (`name COLLATE NOCASE = ? AND id != ?`), then a missing target
row; otherwise renames the category row and rewrites the denormalized
`category` text of every box whose `category_id` references it, committing
both updates together.  Returns ((success, message), resulting state). -/
def edit_category (db : DB) (category_id : Nat) (new_name : String) :
    (Bool × String) × DB :=
  if pyStrip new_name = "" then
    ((false, "Category name cannot be empty"), db)
  else
    if db.categories.any
        (fun c => (sqlLower c.name == sqlLower (pyStrip new_name)) && (c.id != category_id)) then
      ((false, "Another category with name '" ++ pyStrip new_name ++ "' already exists"), db)
    else
      match db.categories.find? (fun c => c.id == category_id) with
      | none => ((false, "Category with ID " ++ toString category_id ++ " not found"), db)
      | some _ =>
        let cats := db.categories.map
          (fun c => if c.id = category_id then { c with name := pyStrip new_name } else c)
        let boxes := db.boxes.map
          (fun b => if b.category_id = some category_id
                    then { b with category := pyStrip new_name } else b)
        let db2 : DB := { db with categories := cats, boxes := boxes }
        ((true, "Category updated successfully. " ++
                toString (count_boxes_using_category db2 category_id) ++
                " boxes were also updated."), db2)

/-- delete_category (simplified_app.py, lines 443-457): refuses while any box
references the category, otherwise hard-deletes the row
(`DELETE FROM categories WHERE id = ?`). -/
def delete_category (db : DB) (category_id : Nat) : (Bool × String) × DB :=
  if 0 < count_boxes_using_category db category_id then
    ((false, "Cannot delete category - " ++
             toString (count_boxes_using_category db category_id) ++
             " boxes are using it"), db)
  else
    ((true, "Category deleted successfully"),
     { db with categories := db.categories.filter (fun c => c.id != category_id) })

end SimplifiedApp

namespace SimplifiedAppFixed

/-- count_boxes_using_category (simplified_app_fixed.py, lines 190-193):
`SELECT COUNT(*) FROM boxes WHERE category_id = ? AND is_deleted = 0`. -/
def count_boxes_using_category (db : DB) (category_id : Nat) : Nat :=
  (db.boxes.filter (fun b => b.category_id = some category_id && !b.is_deleted)).length

/-- delete_category (simplified_app_fixed.py, lines 195-209): refuses while
any non-deleted box references the category, otherwise deactivates the row
(`UPDATE categories SET is_active = 0 WHERE id = ?`). -/
def delete_category (db : DB) (category_id : Nat) : (Bool × String) × DB :=
  if 0 < count_boxes_using_category db category_id then
    ((false, "Cannot delete category - " ++
             toString (count_boxes_using_category db category_id) ++
             " boxes are using it"), db)
  else
    ((true, "Category deleted successfully"),
     { db with categories :=
        (db.categories.map (fun c => if c.id = category_id then { c with is_active := false } else c)) })

end SimplifiedAppFixed

/-- C4: `edit_category` rejects an empty or whitespace-only new name, and a
name that case-insensitively equals another existing category's name, leaving
the state unchanged; on success the target category row carries the (stripped)
new name and the denormalized `category` text of every box referencing the
category is set to it, all in one atomic state update. -/
theorem C4_edit_category_rename (db : DB) (cid : Nat) (nn : String) :
    (pyStrip nn = "" →
      SimplifiedApp.edit_category db cid nn = ((false, "Category name cannot be empty"), db)) ∧
    ((∃ c ∈ db.categories, c.id ≠ cid ∧ sqlLower c.name = sqlLower (pyStrip nn)) →
      (SimplifiedApp.edit_category db cid nn).1.1 = false ∧
      (SimplifiedApp.edit_category db cid nn).2 = db) ∧
    ((SimplifiedApp.edit_category db cid nn).1.1 = true →
      (SimplifiedApp.edit_category db cid nn).2.categories =
        db.categories.map (fun c => if c.id = cid then { c with name := pyStrip nn } else c) ∧
      (SimplifiedApp.edit_category db cid nn).2.boxes =
        db.boxes.map (fun b => if b.category_id = some cid
                               then { b with category := pyStrip nn } else b) ∧
      ∀ b ∈ (SimplifiedApp.edit_category db cid nn).2.boxes,
        b.category_id = some cid → b.category = pyStrip nn) := by
  refine ⟨fun hempty => ?_, fun hdup => ?_, fun hok => ?_⟩
  · unfold SimplifiedApp.edit_category
    rw [if_pos hempty]
  · unfold SimplifiedApp.edit_category
    by_cases hempty : pyStrip nn = ""
    · rw [if_pos hempty]; exact ⟨rfl, rfl⟩
    · rw [if_neg hempty]
      obtain ⟨c, hc, hne, hname⟩ := hdup
      have hany : db.categories.any
          (fun c => (sqlLower c.name == sqlLower (pyStrip nn)) && (c.id != cid)) = true := by
        rw [List.any_eq_true]
        exact ⟨c, hc, by simp [hname, hne]⟩
      rw [if_pos hany]
      exact ⟨rfl, rfl⟩
  · unfold SimplifiedApp.edit_category at hok ⊢
    by_cases hempty : pyStrip nn = ""
    · rw [if_pos hempty] at hok; simp at hok
    · rw [if_neg hempty] at hok ⊢
      by_cases hany : db.categories.any
          (fun c => (sqlLower c.name == sqlLower (pyStrip nn)) && (c.id != cid)) = true
      · rw [if_pos hany] at hok; simp at hok
      · rw [if_neg hany] at hok ⊢
        cases hfind : db.categories.find? (fun c => c.id == cid) with
        | none => rw [hfind] at hok; simp at hok
        | some c0 =>
          refine ⟨rfl, rfl, ?_⟩
          intro b hb hbcid
          simp only [List.mem_map] at hb
          obtain ⟨a, _, rfl⟩ := hb
          by_cases hac : a.category_id = some cid
          · simp [hac]
          · simp only [if_neg hac] at hbcid
            exact absurd hbcid hac

def boxC (id num cid : Nat) (cat : String) : Box :=
  { id := id, box_number := num, priority := "Priority 1", category_id := some cid,
    category := cat, box_size := "Medium", description := "witness box",
    is_deleted := false, notes := "" }

def c4_db : DB :=
  { boxes := [boxC 1 1 1 "Kitchen", boxC 2 2 2 "Garage"],
    categories := [⟨1, "Kitchen", true⟩, ⟨2, "Garage", true⟩], history := [],
    next_box_id := 3, next_cat_id := 3 }

theorem C4_edit_category_rename_witness :
    (SimplifiedApp.edit_category c4_db 1 "Cooking").2.categories =
      [⟨1, "Cooking", true⟩, ⟨2, "Garage", true⟩] := by
  have h := (C4_edit_category_rename c4_db 1 "Cooking").2.2 (by decide)
  rw [h.1]
  decide

/-- C5: `delete_category` fails and leaves the categories table unchanged
whenever the variant's usage count of the category is positive, and succeeds
whenever that count is zero — removing the row in the hard-delete variant,
deactivating it in the soft-delete variant. -/
theorem C5_delete_category_guarded (db : DB) (cid : Nat) :
    (0 < SimplifiedApp.count_boxes_using_category db cid →
      (SimplifiedApp.delete_category db cid).1.1 = false ∧
      (SimplifiedApp.delete_category db cid).2 = db) ∧
    (SimplifiedApp.count_boxes_using_category db cid = 0 →
      (SimplifiedApp.delete_category db cid).1.1 = true ∧
      (SimplifiedApp.delete_category db cid).2.categories =
        db.categories.filter (fun c => c.id != cid)) ∧
    (0 < SimplifiedAppFixed.count_boxes_using_category db cid →
      (SimplifiedAppFixed.delete_category db cid).1.1 = false ∧
      (SimplifiedAppFixed.delete_category db cid).2 = db) ∧
    (SimplifiedAppFixed.count_boxes_using_category db cid = 0 →
      (SimplifiedAppFixed.delete_category db cid).1.1 = true ∧
      (SimplifiedAppFixed.delete_category db cid).2.categories =
        db.categories.map
          (fun c => if c.id = cid then { c with is_active := false } else c)) := by
  refine ⟨fun hpos => ?_, fun hzero => ?_, fun hpos => ?_, fun hzero => ?_⟩
  · unfold SimplifiedApp.delete_category
    rw [if_pos hpos]
    exact ⟨rfl, rfl⟩
  · unfold SimplifiedApp.delete_category
    rw [if_neg (by omega)]
    exact ⟨rfl, rfl⟩
  · unfold SimplifiedAppFixed.delete_category
    rw [if_pos hpos]
    exact ⟨rfl, rfl⟩
  · unfold SimplifiedAppFixed.delete_category
    rw [if_neg (by omega)]
    exact ⟨rfl, rfl⟩

theorem C5_delete_category_guarded_witness :
    ((SimplifiedApp.delete_category c2_db 1).1.1 = false ∧
     (SimplifiedApp.delete_category c2_db 1).2 = c2_db) ∧
    (SimplifiedAppFixed.delete_category c4_db 3).1.1 = true :=
  ⟨(C5_delete_category_guarded c2_db 1).1 (by decide),
   ((C5_delete_category_guarded c4_db 3).2.2.2 (by decide)).1⟩

namespace SimplifiedApp

/-- get_box (simplified_app.py, lines 263-265):
`SELECT * FROM boxes WHERE id = ?` — note: no `is_deleted` filter. -/
def get_box (db : DB) (box_id : Nat) : Option Box :=
  db.boxes.find? (fun b => b.id == box_id)

/-- The `box_number if box_number is not None else get_next_box_number()`
step at the top of create_box. -/
def resolved_box_number (db : DB) (box_number_opt : Option Nat) : Nat :=
  match box_number_opt with
  | some n => n
  | none => get_next_box_number db

/-- create_box (simplified_app.py, lines 486-531).  Inside one transaction:
resolve the box number, fail if any stored row already holds it
(`SELECT 1 FROM boxes WHERE box_number = ?`), fail if the category id does
not exist, otherwise insert the box row and a "create" history row.  An
exception rolls the transaction back, so an error result carries no state:
the caller's database is unchanged. -/
def create_box (db : DB) (priority : String) (category_id : Nat)
    (box_size description editor : String) (box_number_opt : Option Nat) :
    Except String (DB × Nat) :=
  let box_number := resolved_box_number db box_number_opt
  if db.boxes.any (fun b => b.box_number == box_number) then
    .error ("Box number " ++ toString box_number ++ " is already in use")
  else
    match db.categories.find? (fun c => c.id == category_id) with
    | none => .error ("Invalid category ID: " ++ toString category_id)
    | some cat =>
      .ok ({ db with
             boxes := db.boxes ++
               [{ id := db.next_box_id, box_number := box_number, priority := priority,
                  category_id := some category_id, category := cat.name,
                  box_size := box_size, description := description,
                  is_deleted := false, notes := "" }],
             history := db.history ++
               [⟨db.next_box_id, "create", "Created box #" ++ toString box_number, editor⟩],
             next_box_id := db.next_box_id + 1 }, db.next_box_id)

/-- The field-level diff of update_box (simplified_app.py, lines 542-550):
priority, category_id, box_size and description are compared against the
stored row. -/
def update_changes (box : Box) (priority : String) (category_id : Nat)
    (category box_size description : String) : List String :=
  (if box.priority ≠ priority
   then ["Priority: " ++ box.priority ++ " -> " ++ priority] else []) ++
  (if box.category_id ≠ some category_id
   then ["Category: " ++ box.category ++ " -> " ++ category] else []) ++
  (if box.box_size ≠ box_size
   then ["Size: " ++ box.box_size ++ " -> " ++ box_size] else []) ++
  (if box.description ≠ description then ["Description updated"] else [])

/-- update_box (simplified_app.py, lines 533-573).  Loads the box (None if
absent), diffs the four tracked fields — priority, category_id, box_size,
description — writes the new values (including the denormalized category
text), and appends an "update" history entry exactly when the diff is
non-empty. -/
def update_box (db : DB) (box_id : Nat) (priority : String) (category_id : Nat)
    (category box_size description editor : String) : Option DB :=
  match get_box db box_id with
  | none => none
  | some box =>
    let changes := update_changes box priority category_id category box_size description
    let boxes := db.boxes.map (fun b =>
      if b.id = box_id
      then { b with priority := priority, category_id := some category_id,
                    category := category, box_size := box_size,
                    description := description }
      else b)
    let history :=
      if changes ≠ [] then
        db.history ++ [⟨box_id, "update", String.intercalate "\n" changes, editor⟩]
      else db.history
    some { db with boxes := boxes, history := history }

/-- delete_box (simplified_app.py, lines 575-599): hard delete — removes the
box's history rows and then the box row itself, in one transaction. -/
def delete_box (db : DB) (box_id : Nat) : Bool × DB :=
  match get_box db box_id with
  | none => (false, db)
  | some _ =>
    (true, { db with
             history := db.history.filter (fun h => h.box_id != box_id),
             boxes := db.boxes.filter (fun b => b.id != box_id) })

end SimplifiedApp

namespace SimplifiedAppFixed

/-- get_box (simplified_app_fixed.py, lines 211-218): fetches the box row by
id with `NOT b.is_deleted`; the LEFT JOIN's `category_name` column is
recovered by `category_name_of` below. -/
def get_box (db : DB) (box_id : Nat) : Option Box :=
  db.boxes.find? (fun b => b.id == box_id && !b.is_deleted)

/-- The `c.name as category_name` column of get_box's
`LEFT JOIN categories c ON b.category_id = c.id` (NULL when the box has no
category or the id is dangling). -/
def category_name_of (db : DB) (category_id : Option Nat) : Option String :=
  category_id.bind (fun i => (db.categories.find? (fun c => c.id == i)).map Category.name)

/-- get_category_by_name (simplified_app_fixed.py, lines 166-168):
`SELECT * FROM categories WHERE name = ? AND is_active = 1`. -/
def get_category_by_name (db : DB) (name : String) : Option Category :=
  db.categories.find? (fun c => c.name == name && c.is_active)

/-- create_category (simplified_app_fixed.py, lines 170-188): inserts the
name; the UNIQUE constraint (an IntegrityError, reported as None) fires when
any row — active or not — already holds the name. -/
def create_category (db : DB) (name : String) : Option (DB × Nat) :=
  if db.categories.any (fun c => c.name == name) then none
  else some ({ db with
               categories := db.categories ++ [⟨db.next_cat_id, name, true⟩],
               next_cat_id := db.next_cat_id + 1 }, db.next_cat_id)

/-- The get-or-create category block repeated in create_box and update_box
(simplified_app_fixed.py, lines 324-331 and 372-379). -/
def get_or_create_category (db : DB) (name : String) : Option (DB × Nat) :=
  match get_category_by_name db name with
  | some cat => some (db, cat.id)
  | none => create_category db name

/-- create_box (simplified_app_fixed.py, lines 316-361).  Inside one
transaction: compute the next box number, get-or-create the category by
name, re-check that no non-deleted row holds the number
(`SELECT 1 FROM boxes WHERE box_number = ? AND is_deleted = 0`), then insert
the box row (is_deleted = 0) and a "create" history row.  This variant's
schema no longer carries the denormalized category text, so the embedding
stores "" there. -/
def create_box (db : DB) (priority category_name box_size description editor : String) :
    Except String (DB × Nat) :=
  let box_number := get_next_box_number db
  match get_or_create_category db category_name with
  | none => .error ("Could not create category: " ++ category_name)
  | some (db1, category_id) =>
    if db1.boxes.any (fun b => b.box_number == box_number && !b.is_deleted) then
      .error ("Box number " ++ toString box_number ++ " is already in use")
    else
      .ok ({ db1 with
             boxes := db1.boxes ++
               [{ id := db1.next_box_id, box_number := box_number, priority := priority,
                  category_id := some category_id, category := "",
                  box_size := box_size, description := description,
                  is_deleted := false, notes := "" }],
             history := db1.history ++
               [⟨db1.next_box_id, "create", "Created box #" ++ toString box_number, editor⟩],
             next_box_id := db1.next_box_id + 1 }, db1.next_box_id)

inductive UpdateOutcome
  | notFound
  | categoryError (msg : String)
  | ok (db : DB)
deriving DecidableEq

/-- The field-level diff of update_box (simplified_app_fixed.py, lines
381-389): priority, the joined category name, box_size and description are
compared against the loaded row. -/
def update_changes (db : DB) (box : Box)
    (priority category_name box_size description : String) : List String :=
  (if box.priority ≠ priority
   then ["Priority: " ++ box.priority ++ " -> " ++ priority] else []) ++
  (if category_name_of db box.category_id ≠ some category_name
   then ["Category: " ++ (category_name_of db box.category_id).getD "None" ++
         " -> " ++ category_name] else []) ++
  (if box.box_size ≠ box_size
   then ["Size: " ++ box.box_size ++ " -> " ++ box_size] else []) ++
  (if box.description ≠ description then ["Description updated"] else [])

/-- update_box (simplified_app_fixed.py, lines 363-412).  Loads the box
(with its joined category_name) — None if absent or deleted; get-or-creates
the supplied category by name (raising when creation fails); diffs
priority, category name, box_size and description against the loaded row;
writes the new values; appends an "update" history entry exactly when the
diff is non-empty. -/
def update_box (db : DB) (box_id : Nat)
    (priority category_name box_size description editor : String) : UpdateOutcome :=
  match get_box db box_id with
  | none => .notFound
  | some box =>
    match get_or_create_category db category_name with
    | none => .categoryError ("Could not create category: " ++ category_name)
    | some (db1, category_id) =>
      let changes := update_changes db box priority category_name box_size description
      let boxes := db1.boxes.map (fun b =>
        if b.id = box_id
        then { b with priority := priority, category_id := some category_id,
                      box_size := box_size, description := description }
        else b)
      let history :=
        if changes ≠ [] then
          db1.history ++ [⟨box_id, "update", String.intercalate "\n" changes, editor⟩]
        else db1.history
      .ok { db1 with boxes := boxes, history := history }

/-- delete_box (simplified_app_fixed.py, lines 414-437): soft delete — sets
`is_deleted = 1` on the row and appends a "delete" history entry. -/
def delete_box (db : DB) (box_id : Nat) (editor : String) : Bool × DB :=
  match get_box db box_id with
  | none => (false, db)
  | some box =>
    (true, { db with
             boxes := db.boxes.map (fun b =>
               if b.id = box_id then { b with is_deleted := true } else b),
             history := db.history ++
               [⟨box_id, "delete", "Deleted box #" ++ toString box.box_number, editor⟩] })

/-- get_or_create_category never touches the history table. -/
theorem get_or_create_category_history (db : DB) (name : String) (db1 : DB) (cid : Nat)
    (h : get_or_create_category db name = some (db1, cid)) : db1.history = db.history := by
  unfold get_or_create_category at h
  cases hfind : get_category_by_name db name with
  | some cat =>
    rw [hfind] at h
    simp only [Option.some.injEq, Prod.mk.injEq] at h
    rw [← h.1]
  | none =>
    rw [hfind] at h
    change create_category db name = some (db1, cid) at h
    unfold create_category at h
    split at h
    · simp at h
    · simp only [Option.some.injEq, Prod.mk.injEq] at h
      rw [← h.1]

/-- The diff is empty exactly when every tracked field is unchanged. -/
theorem update_changes_fixed_ne_nil_iff (db : DB) (box : Box) (p cn bs d : String) :
    update_changes db box p cn bs d ≠ [] ↔
      (box.priority ≠ p ∨ category_name_of db box.category_id ≠ some cn ∨
       box.box_size ≠ bs ∨ box.description ≠ d) := by
  unfold update_changes
  by_cases h1 : box.priority = p <;>
    by_cases h2 : category_name_of db box.category_id = some cn <;>
      by_cases h3 : box.box_size = bs <;>
        by_cases h4 : box.description = d <;>
          simp [h1, h2, h3, h4]

end SimplifiedAppFixed

namespace SimplifiedApp

/-- The diff is empty exactly when every tracked field is unchanged. -/
theorem update_changes_v1_ne_nil_iff (box : Box) (p : String) (cid : Nat) (c bs d : String) :
    update_changes box p cid c bs d ≠ [] ↔
      (box.priority ≠ p ∨ box.category_id ≠ some cid ∨
       box.box_size ≠ bs ∨ box.description ≠ d) := by
  unfold update_changes
  by_cases h1 : box.priority = p <;>
    by_cases h2 : box.category_id = some cid <;>
      by_cases h3 : box.box_size = bs <;>
        by_cases h4 : box.description = d <;>
          simp [h1, h2, h3, h4]

end SimplifiedApp

/-- C3: on a successful update of an existing box, an "update" history entry
is appended if and only if at least one tracked field of the supplied values
differs from the stored value — priority, category (the joined category name
in the soft-delete variant, the category reference in the hard-delete
variant), box_size, description; when nothing differs the history is left
untouched. -/
theorem C3_update_history_iff_diff :
    (∀ (db : DB) (box_id : Nat) (p cn bs d e : String) (box : Box) (db1 : DB),
       SimplifiedAppFixed.get_box db box_id = some box →
       SimplifiedAppFixed.update_box db box_id p cn bs d e = .ok db1 →
       ((box.priority ≠ p ∨ SimplifiedAppFixed.category_name_of db box.category_id ≠ some cn ∨
         box.box_size ≠ bs ∨ box.description ≠ d) →
          ∃ s, db1.history = db.history ++ [⟨box_id, "update", s, e⟩]) ∧
       (box.priority = p → SimplifiedAppFixed.category_name_of db box.category_id = some cn →
        box.box_size = bs → box.description = d →
          db1.history = db.history)) ∧
    (∀ (db : DB) (box_id : Nat) (p : String) (cid : Nat) (c bs d e : String)
       (box : Box) (db1 : DB),
       SimplifiedApp.get_box db box_id = some box →
       SimplifiedApp.update_box db box_id p cid c bs d e = some db1 →
       ((box.priority ≠ p ∨ box.category_id ≠ some cid ∨
         box.box_size ≠ bs ∨ box.description ≠ d) →
          ∃ s, db1.history = db.history ++ [⟨box_id, "update", s, e⟩]) ∧
       (box.priority = p → box.category_id = some cid → box.box_size = bs →
        box.description = d → db1.history = db.history)) := by
  constructor
  · intro db box_id p cn bs d e box db1 hget hok
    unfold SimplifiedAppFixed.update_box at hok
    rw [hget] at hok
    cases hgc : SimplifiedAppFixed.get_or_create_category db cn with
    | none => rw [hgc] at hok; simp at hok
    | some pr =>
      obtain ⟨db2, catid⟩ := pr
      rw [hgc] at hok
      have hhist2 : db2.history = db.history :=
        SimplifiedAppFixed.get_or_create_category_history db cn db2 catid hgc
      simp only [SimplifiedAppFixed.UpdateOutcome.ok.injEq] at hok
      subst hok
      constructor
      · intro hdiff
        have hne : SimplifiedAppFixed.update_changes db box p cn bs d ≠ [] :=
          (SimplifiedAppFixed.update_changes_fixed_ne_nil_iff db box p cn bs d).mpr hdiff
        refine ⟨String.intercalate "\n" (SimplifiedAppFixed.update_changes db box p cn bs d), ?_⟩
        show (if SimplifiedAppFixed.update_changes db box p cn bs d ≠ [] then
                db2.history ++ [⟨box_id, "update",
                  String.intercalate "\n" (SimplifiedAppFixed.update_changes db box p cn bs d), e⟩]
              else db2.history) = _
        rw [if_pos hne, hhist2]
      · intro h1 h2 h3 h4
        have hnil : ¬ SimplifiedAppFixed.update_changes db box p cn bs d ≠ [] := by
          rw [SimplifiedAppFixed.update_changes_fixed_ne_nil_iff]
          push_neg
          exact ⟨h1, h2, h3, h4⟩
        show (if SimplifiedAppFixed.update_changes db box p cn bs d ≠ [] then
                db2.history ++ [⟨box_id, "update",
                  String.intercalate "\n" (SimplifiedAppFixed.update_changes db box p cn bs d), e⟩]
              else db2.history) = _
        rw [if_neg hnil, hhist2]
  · intro db box_id p cid c bs d e box db1 hget hok
    unfold SimplifiedApp.update_box at hok
    rw [hget] at hok
    simp only [Option.some.injEq] at hok
    subst hok
    constructor
    · intro hdiff
      have hne : SimplifiedApp.update_changes box p cid c bs d ≠ [] :=
        (SimplifiedApp.update_changes_v1_ne_nil_iff box p cid c bs d).mpr hdiff
      refine ⟨String.intercalate "\n" (SimplifiedApp.update_changes box p cid c bs d), ?_⟩
      show (if SimplifiedApp.update_changes box p cid c bs d ≠ [] then
              db.history ++ [⟨box_id, "update",
                String.intercalate "\n" (SimplifiedApp.update_changes box p cid c bs d), e⟩]
            else db.history) = _
      rw [if_pos hne]
    · intro h1 h2 h3 h4
      have hnil : ¬ SimplifiedApp.update_changes box p cid c bs d ≠ [] := by
        rw [SimplifiedApp.update_changes_v1_ne_nil_iff]
        push_neg
        exact ⟨h1, h2, h3, h4⟩
      show (if SimplifiedApp.update_changes box p cid c bs d ≠ [] then
              db.history ++ [⟨box_id, "update",
                String.intercalate "\n" (SimplifiedApp.update_changes box p cid c bs d), e⟩]
            else db.history) = _
      rw [if_neg hnil]

def c3_db : DB :=
  { boxes := [boxC 1 1 1 "Kitchen"],
    categories := [⟨1, "Kitchen", true⟩], history := [],
    next_box_id := 2, next_cat_id := 2 }

/-- The result of updating the only box of `c3_db` with its stored values. -/
def c3_db1 : DB :=
  match SimplifiedAppFixed.update_box c3_db 1 "Priority 1" "Kitchen" "Medium" "witness box" "ed" with
  | .ok db => db
  | _ => c3_db

theorem C3_update_history_iff_diff_witness : c3_db1.history = c3_db.history :=
  (C3_update_history_iff_diff.1 c3_db 1 "Priority 1" "Kitchen" "Medium" "witness box" "ed"
      (boxC 1 1 1 "Kitchen") c3_db1 (by decide) (by decide))
    |>.2 (by decide) (by decide) (by decide) (by decide)

/-- C6: the hard-delete variant's `create_box` raises (and, rolling the
transaction back, leaves the database unchanged) whenever the resolved box
number is already held by a non-deleted box or the category id does not
exist; otherwise — on any state the variant can itself produce, i.e. with no
soft-deleted rows — it appends exactly one box row and exactly one "create"
history row in the single transaction. -/
theorem C6_create_box_atomic (db : DB) (p : String) (cid : Nat) (bs d e : String)
    (bno : Option Nat) :
    (((∃ b ∈ db.boxes, b.is_deleted = false ∧
         b.box_number = SimplifiedApp.resolved_box_number db bno) ∨
      (∀ c ∈ db.categories, c.id ≠ cid)) →
      ∃ msg, SimplifiedApp.create_box db p cid bs d e bno = .error msg) ∧
    ((∀ b ∈ db.boxes, b.is_deleted = false) →
     (¬ ∃ b ∈ db.boxes, b.is_deleted = false ∧
        b.box_number = SimplifiedApp.resolved_box_number db bno) →
     (∃ c ∈ db.categories, c.id = cid) →
      ∃ cat, db.categories.find? (fun c => c.id == cid) = some cat ∧
        SimplifiedApp.create_box db p cid bs d e bno = .ok
          ({ db with
             boxes := db.boxes ++
               [{ id := db.next_box_id,
                  box_number := SimplifiedApp.resolved_box_number db bno,
                  priority := p, category_id := some cid, category := cat.name,
                  box_size := bs, description := d, is_deleted := false, notes := "" }],
             history := db.history ++
               [⟨db.next_box_id, "create",
                 "Created box #" ++ toString (SimplifiedApp.resolved_box_number db bno), e⟩],
             next_box_id := db.next_box_id + 1 }, db.next_box_id)) := by
  constructor
  · intro herr
    unfold SimplifiedApp.create_box
    rcases herr with ⟨b, hb, -, hbn⟩ | hinv
    · rw [if_pos ?_]
      · exact ⟨_, rfl⟩
      · rw [List.any_eq_true]
        exact ⟨b, hb, by simp [hbn]⟩
    · by_cases hany : db.boxes.any
          (fun b => b.box_number == SimplifiedApp.resolved_box_number db bno) = true
      · rw [if_pos hany]
        exact ⟨_, rfl⟩
      · rw [if_neg hany]
        cases hfind : db.categories.find? (fun c => c.id == cid) with
        | none => exact ⟨_, rfl⟩
        | some cat =>
          have hmem := List.mem_of_find?_eq_some hfind
          have hp := List.find?_some hfind
          rw [beq_iff_eq] at hp
          exact absurd hp (hinv cat hmem)
  · intro hall hnot hcat
    have hany : ¬ (db.boxes.any
        (fun b => b.box_number == SimplifiedApp.resolved_box_number db bno) = true) := by
      rw [List.any_eq_true]
      rintro ⟨b, hb, hbn⟩
      rw [beq_iff_eq] at hbn
      exact hnot ⟨b, hb, hall b hb, hbn⟩
    obtain ⟨c, hc, hcid⟩ := hcat
    have hsome : (db.categories.find? (fun c => c.id == cid)).isSome := by
      rw [List.find?_isSome]
      exact ⟨c, hc, by simp [hcid]⟩
    obtain ⟨cat, hfind⟩ := Option.isSome_iff_exists.mp hsome
    refine ⟨cat, hfind, ?_⟩
    unfold SimplifiedApp.create_box
    rw [if_neg hany, hfind]

def c6_db : DB :=
  { boxes := [], categories := [⟨1, "Kitchen", true⟩], history := [],
    next_box_id := 1, next_cat_id := 2 }

/-- The spec scenario's starting point: an empty database. -/
def c1_db0 : DB :=
  { boxes := [], categories := [], history := [], next_box_id := 1, next_cat_id := 1 }

/-- Step 1: create box #1 (Kitchen, Medium). -/
def c1_step1 : Except String (DB × Nat) :=
  SimplifiedAppFixed.create_box c1_db0 "Priority 1" "Kitchen" "Medium" "first box" "tester"

def c1_db1 : DB :=
  match c1_step1 with
  | .ok pr => pr.1
  | .error _ => c1_db0

def c1_box_id : Nat :=
  match c1_step1 with
  | .ok pr => pr.2
  | .error _ => 0

/-- Step 2: soft-delete the box just created. -/
def c1_db2 : DB := (SimplifiedAppFixed.delete_box c1_db1 c1_box_id "tester").2

/-- Step 3: create another box. -/
def c1_step3 : Except String (DB × Nat) :=
  SimplifiedAppFixed.create_box c1_db2 "Priority 1" "Kitchen" "Medium" "second box" "tester"

/-- The box number the second create assigns. -/
def c1_second_number : Option Nat :=
  match c1_step3 with
  | .ok pr => (pr.1.boxes.filter (fun b => b.id == pr.2)).head?.map Box.box_number
  | .error _ => none

theorem C6_create_box_atomic_witness :
    (match SimplifiedApp.create_box c6_db "Priority 1" 1 "Medium" "dishes" "ed" (some 1) with
     | .ok _ => true
     | .error _ => false) = true := by
  obtain ⟨cat, hfind, hok⟩ :=
    (C6_create_box_atomic c6_db "Priority 1" 1 "Medium" "dishes" "ed" (some 1)).2
      (by decide) (by decide) ⟨⟨1, "Kitchen", true⟩, by decide, rfl⟩
  rw [hok]

/-- C1: contrary to the spec scenario and to tests.py (test_get_next_box_number:
"we don't reuse deleted box numbers"; test_delete_box expects a soft delete),
the soft-delete variant reuses a soft-deleted box's number immediately:
create box #1, soft-delete it with delete_box, and the next create_box
assigns box number 1 again, not 2 — because get_next_box_number only counts
rows with is_deleted = 0. -/
theorem C1_soft_deleted_number_reused :
    (match c1_step1 with | .ok _ => true | .error _ => false) = true ∧
    (SimplifiedAppFixed.delete_box c1_db1 c1_box_id "tester").1 = true ∧
    (c1_db2.boxes.map (fun b => (b.box_number, b.is_deleted))) = [(1, true)] ∧
    SimplifiedAppFixed.get_next_box_number c1_db2 = 1 ∧
    c1_second_number = some 1 := by
  decide

namespace Export

/-- One export filter of get_boxes_for_export: a condition is added only when
the argument is truthy (`if priority:` — absent or empty means no filter),
and compares the column for equality. -/
def matchOptStr (filter : Option String) (field : String) : Bool :=
  match filter with
  | none => true
  | some s => if s = "" then true else field == s

/-- Ditto for the numeric box_number filter. -/
def matchOptNat (filter : Option Nat) (field : Nat) : Bool :=
  match filter with
  | none => true
  | some n => if n = 0 then true else field == n

/-- SQL `column LIKE '%term%'`: substring containment, ASCII
case-insensitive (SQLite's default LIKE). -/
def likeContains (hay pat : String) : Bool :=
  decide (List.IsInfix (sqlLower pat).data (sqlLower hay).data)

/-- The search_term condition of get_boxes_for_export:
`(description LIKE ? OR notes LIKE ?)`. -/
def matchSearch (search : Option String) (b : Box) : Bool :=
  match search with
  | none => true
  | some s => if s = "" then true else likeContains b.description s || likeContains b.notes s

/-- The WHERE clause assembled by get_boxes_for_export (export.py, lines
57-88). -/
def exportFilter (include_deleted : Bool) (box_number : Option Nat)
    (priority category box_size : Option String) (search_term : Option String)
    (b : Box) : Bool :=
  (include_deleted || !b.is_deleted) &&
  matchOptNat box_number b.box_number &&
  matchOptStr priority b.priority &&
  matchOptStr category b.category &&
  matchOptStr box_size b.box_size &&
  matchSearch search_term b

/-- `ORDER BY box_number`. -/
def byBoxNumber (a b : Box) : Prop := a.box_number ≤ b.box_number

instance : DecidableRel byBoxNumber := fun a b => Nat.decLe a.box_number b.box_number

instance : IsTotal Box byBoxNumber := ⟨fun a b => Nat.le_total a.box_number b.box_number⟩

instance : IsTrans Box byBoxNumber := ⟨fun _ _ _ => Nat.le_trans⟩

/-- get_boxes_for_export (export.py, lines 48-94): the one shared row
selection — filter, then `ORDER BY box_number`. -/
def get_boxes_for_export (boxes : List Box) (include_deleted : Bool)
    (box_number : Option Nat) (priority category box_size : Option String)
    (search_term : Option String) : List Box :=
  List.insertionSort byBoxNumber
    (boxes.filter (exportFilter include_deleted box_number priority category box_size search_term))

/-- The outcome of one export call: the (success, filepath-or-error) pair the
Python function returns, whether an output file was written, and the rows
written to it (empty when nothing was written). -/
structure ExportResult where
  success : Bool
  message : String
  fileWritten : Bool
  rows : List Box
deriving DecidableEq

/-- The filename sanitizer used for custom filenames:
`"".join([c if c.isalnum() else "_" for c in custom_filename])`. -/
def sanitizeName (s : String) : String :=
  String.mk (s.data.map (fun c => if c.isAlphanum then c else '_'))

/-- The `<prefix>_<timestamp>.<ext>` / `box_export_<timestamp>.<ext>` name
each export function builds. -/
def exportFilename (custom_filename : Option String) (timestamp ext : String) : String :=
  match custom_filename with
  | some c => sanitizeName c ++ "_" ++ timestamp ++ "." ++ ext
  | none => "box_export_" ++ timestamp ++ "." ++ ext

/-- export_to_csv (export.py, lines 96-152): select rows with the shared
filter triple; fail with "No boxes found matching the criteria" before
opening any file when the selection is empty; otherwise write the rows. -/
def export_to_csv (boxes : List Box) (search_term category priority : Option String)
    (custom_filename : Option String) (timestamp : String) : ExportResult :=
  if (get_boxes_for_export boxes false none priority category none search_term).isEmpty then
    { success := false, message := "No boxes found matching the criteria",
      fileWritten := false, rows := [] }
  else
    { success := true,
      message := "exports/" ++ exportFilename custom_filename timestamp "csv",
      fileWritten := true,
      rows := get_boxes_for_export boxes false none priority category none search_term }

/-- export_to_json (export.py, lines 154-217): same selection, same
empty-result failure, rows serialized to JSON. -/
def export_to_json (boxes : List Box) (search_term category priority : Option String)
    (custom_filename : Option String) (timestamp : String) : ExportResult :=
  if (get_boxes_for_export boxes false none priority category none search_term).isEmpty then
    { success := false, message := "No boxes found matching the criteria",
      fileWritten := false, rows := [] }
  else
    { success := true,
      message := "exports/" ++ exportFilename custom_filename timestamp "json",
      fileWritten := true,
      rows := get_boxes_for_export boxes false none priority category none search_term }

/-- export_to_pdf (export.py, lines 219-342): guarded by
REPORTLAB_AVAILABLE; otherwise same selection and empty-result failure, rows
laid out into the PDF table. -/
def export_to_pdf (reportlab_available : Bool) (boxes : List Box)
    (search_term category priority : Option String)
    (custom_filename : Option String) (timestamp : String) : ExportResult :=
  if !reportlab_available then
    { success := false, message := "PDF export not available. Install reportlab package.",
      fileWritten := false, rows := [] }
  else
    if (get_boxes_for_export boxes false none priority category none search_term).isEmpty then
      { success := false, message := "No boxes found matching the criteria",
        fileWritten := false, rows := [] }
    else
      { success := true,
        message := "exports/" ++ exportFilename custom_filename timestamp "pdf",
        fileWritten := true,
        rows := get_boxes_for_export boxes false none priority category none search_term }

/-- export_to_markdown (export.py, lines 344-451): same selection, same
empty-result failure, rows rendered as a Markdown table. -/
def export_to_markdown (boxes : List Box) (search_term category priority : Option String)
    (custom_filename : Option String) (timestamp : String) : ExportResult :=
  if (get_boxes_for_export boxes false none priority category none search_term).isEmpty then
    { success := false, message := "No boxes found matching the criteria",
      fileWritten := false, rows := [] }
  else
    { success := true,
      message := "exports/" ++ exportFilename custom_filename timestamp "md",
      fileWritten := true,
      rows := get_boxes_for_export boxes false none priority category none search_term }

end Export

/-- C7: for every database state and filter triple (search term, category,
priority), the four export formats write exactly the same rows — each equals
the one shared selection `get_boxes_for_export`, which is sorted by
box_number. -/
theorem C7_exports_share_one_filter (boxes : List Box)
    (s c p cf : Option String) (ts : String) :
    (Export.export_to_csv boxes s c p cf ts).rows =
      Export.get_boxes_for_export boxes false none p c none s ∧
    (Export.export_to_json boxes s c p cf ts).rows =
      Export.get_boxes_for_export boxes false none p c none s ∧
    (Export.export_to_pdf true boxes s c p cf ts).rows =
      Export.get_boxes_for_export boxes false none p c none s ∧
    (Export.export_to_markdown boxes s c p cf ts).rows =
      Export.get_boxes_for_export boxes false none p c none s ∧
    List.Sorted Export.byBoxNumber (Export.get_boxes_for_export boxes false none p c none s) := by
  refine ⟨?_, ?_, ?_, ?_, List.sorted_insertionSort Export.byBoxNumber _⟩
  · unfold Export.export_to_csv
    split
    · next h => rw [List.isEmpty_iff] at h; rw [h]
    · rfl
  · unfold Export.export_to_json
    split
    · next h => rw [List.isEmpty_iff] at h; rw [h]
    · rfl
  · unfold Export.export_to_pdf
    rw [if_neg (by simp)]
    split
    · next h => rw [List.isEmpty_iff] at h; rw [h]
    · rfl
  · unfold Export.export_to_markdown
    split
    · next h => rw [List.isEmpty_iff] at h; rw [h]
    · rfl

/-- C10: when the filter matches no box, each of the four export functions
returns the failure pair (False, "No boxes found matching the criteria") and
writes no output file. -/
theorem C10_export_empty_is_error (boxes : List Box)
    (s c p cf : Option String) (ts : String)
    (h : Export.get_boxes_for_export boxes false none p c none s = []) :
    Export.export_to_csv boxes s c p cf ts =
      ⟨false, "No boxes found matching the criteria", false, []⟩ ∧
    Export.export_to_json boxes s c p cf ts =
      ⟨false, "No boxes found matching the criteria", false, []⟩ ∧
    Export.export_to_pdf true boxes s c p cf ts =
      ⟨false, "No boxes found matching the criteria", false, []⟩ ∧
    Export.export_to_markdown boxes s c p cf ts =
      ⟨false, "No boxes found matching the criteria", false, []⟩ := by
  have hempty : (Export.get_boxes_for_export boxes false none p c none s).isEmpty = true := by
    rw [h]; rfl
  refine ⟨?_, ?_, ?_, ?_⟩
  · unfold Export.export_to_csv
    rw [if_pos hempty]
  · unfold Export.export_to_json
    rw [if_pos hempty]
  · unfold Export.export_to_pdf
    rw [if_neg (by simp), if_pos hempty]
  · unfold Export.export_to_markdown
    rw [if_pos hempty]

theorem C10_export_empty_is_error_witness :
    Export.export_to_csv [] (some "garage") none none none "20250101_000000" =
      ⟨false, "No boxes found matching the criteria", false, []⟩ :=
  (C10_export_empty_is_error [] (some "garage") none none none "20250101_000000"
    (by decide)).1

namespace Backup

/-- A backup file as list_backups reports it: name and modification-time
stamp (backup.py, lines 203-233; size omitted — no verified property reads
it). -/
structure BackupFile where
  name : String
  timestamp : Nat
deriving DecidableEq

/-- The `backups.sort(key=lambda x: x['timestamp'])` order of
rotate_backups. -/
def oldestFirst (a b : BackupFile) : Prop := a.timestamp ≤ b.timestamp

instance : DecidableRel oldestFirst := fun a b => Nat.decLe a.timestamp b.timestamp

instance : IsTotal BackupFile oldestFirst := ⟨fun a b => Nat.le_total a.timestamp b.timestamp⟩

instance : IsTrans BackupFile oldestFirst := ⟨fun _ _ _ => Nat.le_trans⟩

/-- rotate_backups (backup.py, lines 236-272): rotation is disabled for a
non-positive max_backups; otherwise the backups are sorted oldest first and
the first `count - max_backups` are deleted when the count exceeds the
limit.  Returns (remaining backups, deleted backups). -/
def rotate_backups (files : List BackupFile) (max_backups : Nat) :
    List BackupFile × List BackupFile :=
  if max_backups = 0 then (files, [])
  else
    if max_backups < (List.insertionSort oldestFirst files).length then
      ((List.insertionSort oldestFirst files).drop
         ((List.insertionSort oldestFirst files).length - max_backups),
       (List.insertionSort oldestFirst files).take
         ((List.insertionSort oldestFirst files).length - max_backups))
    else (List.insertionSort oldestFirst files, [])

/-- The slice of backup_config.json that check_auto_backup reads:
auto_backup_interval_seconds and the last_backup_check timestamp (backup.py,
lines 33-39; timestamps as integral seconds). -/
structure AutoBackupConfig where
  auto_backup_interval_seconds : Int
  last_backup_check : Option Int
deriving DecidableEq

/-- check_auto_backup (backup.py, lines 317-353): skip when the interval is
unset or non-positive; run a backup when no last_backup_check is recorded or
`now_ts - last_check >= interval`; persist `last_backup_check := now_ts`
only when the triggered backup's task completes.  The backup's outcome
(create_backup's file copy succeeding) enters as `backup_completes`; the
returned pair is (backup was triggered, configuration as saved). -/
def check_auto_backup (config : AutoBackupConfig) (now_ts : Int)
    (backup_completes : Bool) : Bool × AutoBackupConfig :=
  if config.auto_backup_interval_seconds ≤ 0 then (false, config)
  else
    match config.last_backup_check with
    | none =>
      if backup_completes then (true, { config with last_backup_check := some now_ts })
      else (true, config)
    | some last_check =>
      if config.auto_backup_interval_seconds ≤ now_ts - last_check then
        if backup_completes then (true, { config with last_backup_check := some now_ts })
        else (true, config)
      else (false, config)

end Backup

/-- C8: with a positive retention count and distinct modification times,
rotation keeps at most max_backups files, deletes exactly the excess, loses
nothing else (deleted ++ kept is a permutation of the input), and every
deleted backup is older than every retained one. -/
theorem C8_rotate_deletes_oldest_excess (files : List Backup.BackupFile)
    (max_backups : Nat) (hmax : 0 < max_backups)
    (hdist : files.Pairwise (fun a b => a.timestamp ≠ b.timestamp)) :
    (Backup.rotate_backups files max_backups).1.length ≤ max_backups ∧
    (Backup.rotate_backups files max_backups).2.length = files.length - max_backups ∧
    ((Backup.rotate_backups files max_backups).2 ++
       (Backup.rotate_backups files max_backups).1).Perm files ∧
    ∀ d ∈ (Backup.rotate_backups files max_backups).2,
      ∀ k ∈ (Backup.rotate_backups files max_backups).1, d.timestamp < k.timestamp := by
  have hperm : (List.insertionSort Backup.oldestFirst files).Perm files :=
    List.perm_insertionSort Backup.oldestFirst files
  have hlen : (List.insertionSort Backup.oldestFirst files).length = files.length :=
    hperm.length_eq
  have hsorted : (List.insertionSort Backup.oldestFirst files).Pairwise Backup.oldestFirst :=
    List.sorted_insertionSort Backup.oldestFirst files
  have hne : (List.insertionSort Backup.oldestFirst files).Pairwise
      (fun a b => a.timestamp ≠ b.timestamp) :=
    (hperm.pairwise_iff (fun h => h.symm)).mpr hdist
  have hlt : (List.insertionSort Backup.oldestFirst files).Pairwise
      (fun a b => a.timestamp < b.timestamp) := by
    rw [List.pairwise_iff_forall_sublist]
    intro a b hsub
    have h1 := List.pairwise_iff_forall_sublist.mp hsorted hsub
    have h2 := List.pairwise_iff_forall_sublist.mp hne hsub
    exact lt_of_le_of_ne h1 h2
  unfold Backup.rotate_backups
  rw [if_neg (by omega)]
  by_cases hgt : max_backups < (List.insertionSort Backup.oldestFirst files).length
  · rw [if_pos hgt]
    refine ⟨?_, ?_, ?_, ?_⟩
    · rw [List.length_drop]
      omega
    · rw [List.length_take]
      omega
    · rw [List.take_append_drop]
      exact hperm
    · intro d hd k hk
      have hcross := (List.pairwise_append.mp
        ((List.take_append_drop
            ((List.insertionSort Backup.oldestFirst files).length - max_backups)
            (List.insertionSort Backup.oldestFirst files)).symm ▸ hlt)).2.2
      exact hcross d hd k hk
  · rw [if_neg hgt]
    have hle : files.length ≤ max_backups := by rw [← hlen]; omega
    refine ⟨?_, ?_, ?_, ?_⟩
    · show (List.insertionSort Backup.oldestFirst files).length ≤ max_backups
      rw [hlen]; exact hle
    · show ([] : List Backup.BackupFile).length = files.length - max_backups
      simp
      omega
    · exact hperm
    · intro d hd k hk
      exact absurd hd (List.not_mem_nil d)

def c8_files : List Backup.BackupFile :=
  [⟨"backup_a.db", 30⟩, ⟨"backup_b.db", 10⟩, ⟨"backup_c.db", 20⟩]

theorem C8_rotate_deletes_oldest_excess_witness :
    (Backup.rotate_backups c8_files 2).1.length ≤ 2 ∧
    (Backup.rotate_backups c8_files 2).2.length = c8_files.length - 2 :=
  ⟨(C8_rotate_deletes_oldest_excess c8_files 2 (by decide) (by decide)).1,
   (C8_rotate_deletes_oldest_excess c8_files 2 (by decide) (by decide)).2.1⟩

/-- C9: with a positive configured interval, check_auto_backup triggers a
backup exactly when no last-backup timestamp is recorded or the elapsed time
since it reaches the interval; the stored timestamp becomes `now` only when
the triggered backup completes, and is unchanged whenever the backup fails
or no backup is triggered. -/
theorem C9_auto_backup_trigger_and_persist (config : Backup.AutoBackupConfig)
    (now_ts : Int) (ok : Bool) (hpos : 0 < config.auto_backup_interval_seconds) :
    ((Backup.check_auto_backup config now_ts ok).1 = true ↔
      (config.last_backup_check = none ∨
       ∃ last, config.last_backup_check = some last ∧
         config.auto_backup_interval_seconds ≤ now_ts - last)) ∧
    ((Backup.check_auto_backup config now_ts ok).1 = true → ok = true →
      (Backup.check_auto_backup config now_ts ok).2 =
        { config with last_backup_check := some now_ts }) ∧
    (ok = false → (Backup.check_auto_backup config now_ts ok).2 = config) ∧
    ((Backup.check_auto_backup config now_ts ok).1 = false →
      (Backup.check_auto_backup config now_ts ok).2 = config) := by
  cases ok with
  | true =>
    unfold Backup.check_auto_backup
    rw [if_neg (by omega)]
    split
    · rename_i heq
      exact ⟨⟨fun _ => Or.inl heq, fun _ => rfl⟩, fun _ _ => rfl,
        fun h => Bool.noConfusion h, fun h => Bool.noConfusion h⟩
    · rename_i last heq
      by_cases hdue : config.auto_backup_interval_seconds ≤ now_ts - last
      · rw [if_pos hdue]
        exact ⟨⟨fun _ => Or.inr ⟨last, heq, hdue⟩, fun _ => rfl⟩, fun _ _ => rfl,
          fun h => Bool.noConfusion h, fun h => Bool.noConfusion h⟩
      · rw [if_neg hdue]
        refine ⟨⟨fun h => Bool.noConfusion h, ?_⟩,
          fun h => Bool.noConfusion h, fun h => Bool.noConfusion h, fun _ => rfl⟩
        rintro (h | ⟨last2, hl, hd⟩)
        · rw [heq] at h; cases h
        · rw [heq, Option.some.injEq] at hl
          exact absurd (hl ▸ hd) hdue
  | false =>
    unfold Backup.check_auto_backup
    rw [if_neg (by omega)]
    split
    · rename_i heq
      exact ⟨⟨fun _ => Or.inl heq, fun _ => rfl⟩, fun _ h => Bool.noConfusion h,
        fun _ => rfl, fun h => Bool.noConfusion h⟩
    · rename_i last heq
      by_cases hdue : config.auto_backup_interval_seconds ≤ now_ts - last
      · rw [if_pos hdue]
        exact ⟨⟨fun _ => Or.inr ⟨last, heq, hdue⟩, fun _ => rfl⟩,
          fun _ h => Bool.noConfusion h, fun _ => rfl, fun h => Bool.noConfusion h⟩
      · rw [if_neg hdue]
        refine ⟨⟨fun h => Bool.noConfusion h, ?_⟩,
          fun h => Bool.noConfusion h, fun _ => rfl, fun _ => rfl⟩
        rintro (h | ⟨last2, hl, hd⟩)
        · rw [heq] at h; cases h
        · rw [heq, Option.some.injEq] at hl
          exact absurd (hl ▸ hd) hdue

def c9_config : Backup.AutoBackupConfig :=
  { auto_backup_interval_seconds := 86400, last_backup_check := some 1000 }

theorem C9_auto_backup_trigger_and_persist_witness :
    (Backup.check_auto_backup c9_config 90000 true).1 = true ∧
    (Backup.check_auto_backup c9_config 90000 false).2 = c9_config :=
  ⟨(C9_auto_backup_trigger_and_persist c9_config 90000 true (by decide)).1.mpr
      (Or.inr ⟨1000, rfl, by decide⟩),
   (C9_auto_backup_trigger_and_persist c9_config 90000 false (by decide)).2.2.1 rfl⟩
